import Mathlib

/-!
Verification of the Spotify ETL pipeline (src/spotifyETL/spotifyPipeline.py).

The pipeline is a linear Extract -> Transform -> Load sequence over a
pandas dataframe of recently played tracks.  We embed the payload shape,
the dataframe, and the three stages as executable Lean definitions and
prove the specification claims about them.

Modelling conventions:
  - a provider payload is a list of `Item` values (the `data["items"]` list);
  - a dataframe is a `List (Nat × row)`: each row paired with its pandas
    index label (a fresh dataframe has labels 0,1,2,...);
  - a raised Python exception is an `Except.error` carrying the message;
  - a dataframe cell that may be null/NaN is an `Option`.
-/

namespace Spotify

/-- An album image object of the provider payload; only the url field is read. -/
structure Image where
  url : String
deriving Repr, DecidableEq

/-- A contributing artist object of the provider payload; only the name field is read. -/
structure ArtistObj where
  name : String
deriving Repr, DecidableEq

/-- An album object of the provider payload: display name and ordered image list. -/
structure Album where
  name : String
  images : List Image
deriving Repr, DecidableEq

/-- A track object of the provider payload, restricted to the fields the pipeline projects. -/
structure TrackObj where
  name : String
  artists : List ArtistObj
  album : Album
  popularity : Int
  preview_url : Option String
deriving Repr, DecidableEq

/-- One playback event of the provider payload: a track together with the played_at timestamp. -/
structure Item where
  track : TrackObj
  played_at : String
deriving Repr, DecidableEq

/-- One row of the extracted dataframe.  Every cell is `Option` because a
pandas cell may hold a null, and the transform stage explicitly checks for
nulls in any column. -/
structure PlayRow where
  track : Option String
  artist : Option String
  album : Option String
  albumCover : Option String
  preview : Option String
  playedAt : Option String
  popularity : Option Int
deriving Repr, DecidableEq

/-- One row after the transform stage has remapped the Popularity column
from its numeric score to a category label. -/
structure SongRow where
  track : Option String
  artist : Option String
  album : Option String
  albumCover : Option String
  preview : Option String
  playedAt : Option String
  popularity : Option String
deriving Repr, DecidableEq

/-- `get_data` makes the API call with `limit=50`.  The provider is modelled
as a function from the requested limit to the returned item list. -/
def get_data (provider : Nat → List Item) : List Item :=
  provider 50

/-- The comma join of artist names: `", ".join([x["name"] for x in artists])`. -/
def joinArtists (artists : List ArtistObj) : String :=
  String.intercalate ", " (artists.map ArtistObj.name)

/-- The per-item projection performed by the extract comprehensions.  Taking
`album.images[0]` is a plain list indexing: on an empty image list it raises
an IndexError, modelled as `Except.error "list index out of range"`. -/
def projectItem (x : Item) : Except String PlayRow :=
  match x.track.album.images.head? with
  | none => Except.error "list index out of range"
  | some img =>
      Except.ok
        { track := some x.track.name
          artist := some (joinArtists x.track.artists)
          album := some x.track.album.name
          albumCover := some img.url
          preview := x.track.preview_url
          playedAt := some x.played_at
          popularity := some x.track.popularity }

/-- Projection of every payload item, in payload order; the first item whose
album image list is empty aborts the whole extraction. -/
def extractRows : List Item → Except String (List PlayRow)
  | [] => Except.ok []
  | x :: xs =>
      match projectItem x, extractRows xs with
      | Except.error e, _ => Except.error e
      | Except.ok _, Except.error e => Except.error e
      | Except.ok r, Except.ok rs => Except.ok (r :: rs)

/-- The extract stage: project the payload and build the dataframe
`pd.DataFrame(data)`, whose fresh index labels are 0,1,2,... -/
def extract (items : List Item) : Except String (List (Nat × PlayRow)) :=
  match extractRows items with
  | Except.error e => Except.error e
  | Except.ok rows => Except.ok rows.enum

/-- The popularity UDF, translated clause by clause from `popularity_helper`. -/
def popularity_helper (popularity : Int) : String :=
  if popularity < 25 then "Undiscovered"
  else if popularity < 50 then "Low"
  else if popularity < 75 then "High"
  else "Overplayed"

/-- `df.isnull().values.any()` restricted to one row: is any cell of the row null? -/
def hasNull (r : PlayRow) : Bool :=
  r.track.isNone || r.artist.isNone || r.album.isNone || r.albumCover.isNone ||
    r.preview.isNone || r.playedAt.isNone || r.popularity.isNone

/-- The deduplication key of a row: the (Track, Artist) column pair. -/
def rowKey (r : PlayRow) : Option String × Option String :=
  (r.track, r.artist)

/-- The (Track, Artist) key of a transformed row. -/
def songKey (s : SongRow) : Option String × Option String :=
  (s.track, s.artist)

/-- The deduplication key of a labelled row. -/
def pairKey (q : Nat × PlayRow) : Option String × Option String :=
  rowKey q.2

/-- Column assignment `df["Popularity"] = df["Popularity"].apply(popularity_helper)`
restricted to one row: every other column is untouched. -/
def applyPopularity (r : PlayRow) : SongRow :=
  { track := r.track
    artist := r.artist
    album := r.album
    albumCover := r.albumCover
    preview := r.preview
    playedAt := r.playedAt
    popularity := r.popularity.map popularity_helper }

/-- Worker for `df.drop_duplicates(subset=["Track", "Artist"])` with the
default `keep="first"`: a row is kept exactly when its key was not seen in
any earlier row.  `seen` accumulates the keys of the rows already scanned. -/
def drop_dup_go (seen : List (Option String × Option String)) :
    List (Nat × PlayRow) → List (Nat × PlayRow)
  | [] => []
  | r :: rs =>
      if pairKey r ∈ seen then drop_dup_go seen rs
      else r :: drop_dup_go (pairKey r :: seen) rs

/-- `df.drop_duplicates(subset=["Track", "Artist"], inplace=True)`: keep the
first row of each distinct (Track, Artist) pair, preserving order and labels. -/
def drop_duplicates (df : List (Nat × PlayRow)) : List (Nat × PlayRow) :=
  drop_dup_go [] df

/-- `df.reset_index(inplace=True, drop=True)`: discard the old index labels
and relabel the rows 0,1,2,... in their current order. -/
def reset_index {α : Type} (df : List (Nat × α)) : List (Nat × α) :=
  (df.map Prod.snd).enum

/-- The dataframe produced by the transform stage once all three validation
checks have passed: deduplicate, re-index, then remap the Popularity column. -/
def transform_output (df : List (Nat × PlayRow)) : List (Nat × SongRow) :=
  (reset_index (drop_duplicates df)).map (fun p => (p.1, applyPopularity p.2))

/-- The transform stage on an already extracted dataframe: the three gating
checks of `transform` (empty set, nulls, duplicated timestamps), in source
order, then deduplication, re-indexing and the popularity remap. -/
def transform (df : List (Nat × PlayRow)) : Except String (List (Nat × SongRow)) :=
  if df.isEmpty then
    Except.error "No recently played songs."
  else if df.any (fun p => hasNull p.2) then
    Except.error "Null values found - check extraction process/api call"
  else if ¬ (df.map (fun p => p.2.playedAt)).Nodup then
    Except.error "Error during transformation - duplicated timestamps present"
  else
    Except.ok (transform_output df)

/-- `transform` as called by `load`: it runs the extraction itself and then
transforms the resulting dataframe. -/
def transform_run (items : List Item) : Except String (List (Nat × SongRow)) :=
  match extract items with
  | Except.error e => Except.error e
  | Except.ok df => transform df

/-- The destination-touching tail of `load`: the empty-result guard, then the
`to_sql(..., index=False, if_exists="replace")` call, modelled as an atomic
replacement of the destination table by the rows of the dataframe (labels are
dropped because of `index=False`).  Returns the outcome and the destination
table after the call. -/
def load_write (songs : List (Nat × SongRow)) (dest : List SongRow) :
    Except String Unit × List SongRow :=
  if songs.isEmpty then
    (Except.error "Issue with transform - dataframe empty", dest)
  else
    (Except.ok (), songs.map Prod.snd)

/-- A full run of `load` against a destination table: extract and transform,
then write.  A failure in any stage leaves the destination unchanged because
the only destination-touching operation is the final `load_write`. -/
def load_run (items : List Item) (dest : List SongRow) :
    Except String Unit × List SongRow :=
  match transform_run items with
  | Except.error e => (Except.error e, dest)
  | Except.ok songs => load_write songs dest

/-! Concrete sample data used by witness theorems. -/

/-- A payload item whose album has a cover image: extraction succeeds on it. -/
def goodItem : Item :=
  { track :=
      { name := "Song A"
        artists := [{ name := "X" }, { name := "Y" }]
        album := { name := "Album A", images := [{ url := "largest.png" }, { url := "small.png" }] }
        popularity := 30
        preview_url := some "preview-a" }
    played_at := "2022-04-25T10:00:00Z" }

/-- A payload item whose album image list is empty: taking images[0] fails. -/
def badItem : Item :=
  { track :=
      { name := "Song B"
        artists := [{ name := "Z" }]
        album := { name := "Album B", images := [] }
        popularity := 80
        preview_url := some "preview-b" }
    played_at := "2022-04-25T11:00:00Z" }

/-- A fully populated dataframe row. -/
def rowA : PlayRow :=
  { track := some "Song A"
    artist := some "X"
    album := some "Album A"
    albumCover := some "a.png"
    preview := some "pa"
    playedAt := some "t1"
    popularity := some 30 }

/-- A later replay of the same song as `rowA`: same (Track, Artist) key,
different timestamp. -/
def rowB : PlayRow :=
  { rowA with playedAt := some "t2", popularity := some 90 }

/-- A row of a distinct song. -/
def rowC : PlayRow :=
  { track := some "Song C"
    artist := some "W"
    album := some "Album C"
    albumCover := some "c.png"
    preview := some "pc"
    playedAt := some "t3"
    popularity := some 60 }

/-- A row with a null Preview cell. -/
def rowNull : PlayRow :=
  { rowA with preview := none, playedAt := some "t4" }

/-- A sample provider that honours any requested limit: it owns exactly one
playback event and returns at most min(limit, 1) items. -/
def sampleProvider (n : Nat) : List Item :=
  List.replicate (min n 1) goodItem

/-- The row the extract stage projects out of `goodItem`. -/
def goodRow : PlayRow :=
  { track := some "Song A"
    artist := some "X, Y"
    album := some "Album A"
    albumCover := some "largest.png"
    preview := some "preview-a"
    playedAt := some "2022-04-25T10:00:00Z"
    popularity := some 30 }

end Spotify

namespace Spotify

/-- C1: on the documented range [0,100] the popularity UDF returns
Undiscovered on [0,24], Low on [25,49], High on [50,74] and Overplayed on
[75,100]; the boundaries 25, 50 and 75 land in the higher bucket. -/
theorem popularity_buckets :
    (∀ p : Int, 0 ≤ p → p ≤ 100 →
      (p ≤ 24 → popularity_helper p = "Undiscovered") ∧
      (25 ≤ p → p ≤ 49 → popularity_helper p = "Low") ∧
      (50 ≤ p → p ≤ 74 → popularity_helper p = "High") ∧
      (75 ≤ p → popularity_helper p = "Overplayed")) ∧
    popularity_helper 25 = "Low" ∧
    popularity_helper 50 = "High" ∧
    popularity_helper 75 = "Overplayed" := by
  refine ⟨fun p _ _ => ⟨?_, ?_, ?_, ?_⟩, by decide, by decide, by decide⟩ <;>
    intros <;> simp only [popularity_helper] <;> split_ifs <;> first | rfl | omega

/-- Witness for C1: the four bucket rules evaluated at 24, 25, 74 and 75. -/
theorem popularity_buckets_witness :
    popularity_helper 24 = "Undiscovered" ∧ popularity_helper 25 = "Low" ∧
      popularity_helper 74 = "High" ∧ popularity_helper 75 = "Overplayed" :=
  ⟨(popularity_buckets.1 24 (by decide) (by decide)).1 (by decide),
   (popularity_buckets.1 25 (by decide) (by decide)).2.1 (by decide) (by decide),
   (popularity_buckets.1 74 (by decide) (by decide)).2.2.1 (by decide) (by decide),
   (popularity_buckets.1 75 (by decide) (by decide)).2.2.2 (by decide)⟩

/-! Structural lemmas about `drop_dup_go`, the keep-first deduplication. -/

/-- Deduplication only drops rows: the output is a sublist of the input. -/
theorem drop_dup_go_sublist (seen : List (Option String × Option String))
    (l : List (Nat × PlayRow)) : (drop_dup_go seen l).Sublist l := by
  induction l generalizing seen with
  | nil => simp [drop_dup_go]
  | cons r rs ih =>
    by_cases h : pairKey r ∈ seen
    · simp only [drop_dup_go, if_pos h]
      exact (ih seen).trans (List.sublist_cons_self r rs)
    · simp only [drop_dup_go, if_neg h]
      exact (ih (pairKey r :: seen)).cons₂ r

/-- No key of a kept row belongs to the accumulator of already-seen keys. -/
theorem drop_dup_go_keys_not_seen (seen : List (Option String × Option String))
    (l : List (Nat × PlayRow)) :
    ∀ k ∈ (drop_dup_go seen l).map pairKey, k ∉ seen := by
  induction l generalizing seen with
  | nil => simp [drop_dup_go]
  | cons r rs ih =>
    by_cases h : pairKey r ∈ seen
    · simpa only [drop_dup_go, if_pos h] using ih seen
    · intro k hk
      simp only [drop_dup_go, if_neg h, List.map_cons, List.mem_cons] at hk
      rcases hk with rfl | hk
      · exact h
      · exact fun hks => ih (pairKey r :: seen) k hk (List.mem_cons_of_mem _ hks)

/-- The kept rows have pairwise distinct (Track, Artist) keys. -/
theorem drop_dup_go_keys_nodup (seen : List (Option String × Option String))
    (l : List (Nat × PlayRow)) : ((drop_dup_go seen l).map pairKey).Nodup := by
  induction l generalizing seen with
  | nil => simp [drop_dup_go]
  | cons r rs ih =>
    by_cases h : pairKey r ∈ seen
    · simpa only [drop_dup_go, if_pos h] using ih seen
    · simp only [drop_dup_go, if_neg h, List.map_cons, List.nodup_cons]
      exact ⟨fun hmem => drop_dup_go_keys_not_seen (pairKey r :: seen) rs _ hmem
        (List.mem_cons_self _ _), ih (pairKey r :: seen)⟩

/-- Every input key that is not already in the accumulator survives among
the kept rows: only repeats are discarded. -/
theorem drop_dup_go_key_covered (seen : List (Option String × Option String))
    (l : List (Nat × PlayRow)) :
    ∀ q ∈ l, pairKey q ∈ seen ∨ pairKey q ∈ (drop_dup_go seen l).map pairKey := by
  induction l generalizing seen with
  | nil => simp
  | cons r rs ih =>
    intro q hq
    rcases List.mem_cons.mp hq with rfl | hq
    · by_cases h : pairKey q ∈ seen
      · exact Or.inl h
      · right
        simp [drop_dup_go, if_neg h]
    · by_cases h : pairKey r ∈ seen
      · simpa only [drop_dup_go, if_pos h] using ih seen q hq
      · rcases ih (pairKey r :: seen) q hq with hs | hout
        · rcases List.mem_cons.mp hs with heq | hs
          · right
            simp [drop_dup_go, if_neg h, heq]
          · exact Or.inl hs
        · right
          simp only [drop_dup_go, if_neg h, List.map_cons]
          exact List.mem_cons_of_mem _ hout

/-- Each kept row is the first row of the input list bearing its key. -/
theorem drop_dup_go_first (seen : List (Option String × Option String))
    (l : List (Nat × PlayRow)) :
    ∀ q ∈ drop_dup_go seen l,
      l.find? (fun q0 => decide (pairKey q0 = pairKey q)) = some q := by
  induction l generalizing seen with
  | nil => simp [drop_dup_go]
  | cons r rs ih =>
    intro q hq
    by_cases h : pairKey r ∈ seen
    · rw [drop_dup_go, if_pos h] at hq
      have hq' : pairKey q ∉ seen :=
        drop_dup_go_keys_not_seen seen rs _ (List.mem_map_of_mem pairKey hq)
      have hne : ¬ (pairKey r = pairKey q) := fun he => hq' (he ▸ h)
      rw [List.find?_cons_of_neg _ (by simpa using hne)]
      exact ih seen q hq
    · rw [drop_dup_go, if_neg h] at hq
      rcases List.mem_cons.mp hq with rfl | hq
      · rw [List.find?_cons_of_pos _ (by simp)]
      · have hq' : pairKey q ∉ pairKey r :: seen :=
          drop_dup_go_keys_not_seen (pairKey r :: seen) rs _ (List.mem_map_of_mem pairKey hq)
        have hne : ¬ (pairKey r = pairKey q) :=
          fun he => hq' (he ▸ List.mem_cons_self _ _)
        rw [List.find?_cons_of_neg _ (by simpa using hne)]
        exact ih (pairKey r :: seen) q hq

/-- On an input whose keys are already pairwise distinct and disjoint from
the accumulator, deduplication keeps every row. -/
theorem drop_dup_go_fix (seen : List (Option String × Option String))
    (l : List (Nat × PlayRow)) (hn : (l.map pairKey).Nodup)
    (hd : ∀ q ∈ l, pairKey q ∉ seen) : drop_dup_go seen l = l := by
  induction l generalizing seen with
  | nil => simp [drop_dup_go]
  | cons r rs ih =>
    simp only [List.map_cons, List.nodup_cons] at hn
    rw [drop_dup_go, if_neg (hd r (List.mem_cons_self _ _))]
    refine congrArg (r :: ·) (ih (pairKey r :: seen) hn.2 ?_)
    intro q hq
    simp only [List.mem_cons, not_or]
    exact ⟨fun he => hn.1 (he ▸ List.mem_map_of_mem pairKey hq),
      hd q (List.mem_cons_of_mem _ hq)⟩

/-- Deduplicating a non-empty dataframe yields a non-empty dataframe: the
first row is always kept. -/
theorem drop_duplicates_ne_nil (r : Nat × PlayRow) (rs : List (Nat × PlayRow)) :
    drop_duplicates (r :: rs) ≠ [] := by
  simp [drop_duplicates, drop_dup_go]

/-- C9: the popularity UDF is total on all integers, not only [0,100]: it
always returns one of the four labels, every negative score falls in the
first branch (Undiscovered) and every score above 100 falls in the final
else branch (Overplayed); no out-of-range validation exists. -/
theorem popularity_total :
    ∀ p : Int,
      (popularity_helper p = "Undiscovered" ∨ popularity_helper p = "Low" ∨
        popularity_helper p = "High" ∨ popularity_helper p = "Overplayed") ∧
      (p < 0 → popularity_helper p = "Undiscovered") ∧
      (100 < p → popularity_helper p = "Overplayed") := by
  intro p
  refine ⟨?_, fun h => ?_, fun h => ?_⟩ <;>
    simp only [popularity_helper] <;> split_ifs <;> simp_all <;> omega

/-- Witness for C9: totality at -7 and 101. -/
theorem popularity_total_witness :
    popularity_helper (-7) = "Undiscovered" ∧ popularity_helper 101 = "Overplayed" :=
  ⟨(popularity_total (-7)).2.1 (by decide), (popularity_total 101).2.2 (by decide)⟩

/-- The popularity remap touches no column that enters the dedup key. -/
theorem songKey_applyPopularity (r : PlayRow) :
    songKey (applyPopularity r) = rowKey r := rfl

/-- Mapping a function of the element part over an enumerated list is
mapping it over the original list. -/
theorem enum_map_comp {α β : Type} (l : List α) (f : α → β) :
    l.enum.map (fun p => f p.2) = l.map f := by
  have : (fun p : Nat × α => f p.2) = f ∘ Prod.snd := rfl
  rw [this, ← List.map_map, List.enum_map_snd]

/-- Inversion of a successful transform: all three validation checks must
have passed and the result is the dedup/re-index/remap of the input. -/
theorem transform_eq_ok {df : List (Nat × PlayRow)} {out : List (Nat × SongRow)}
    (h : transform df = Except.ok out) :
    df ≠ [] ∧ (∀ p ∈ df, ¬ hasNull p.2 = true) ∧
      (df.map (fun p => p.2.playedAt)).Nodup ∧ out = transform_output df := by
  unfold transform at h
  split_ifs at h with h1 h2 h3
  cases h
  refine ⟨fun hnil => h1 (by simp [hnil]), ?_, h3, rfl⟩
  intro p hp htrue
  exact h2 (List.any_eq_true.mpr ⟨p, hp, htrue⟩)

/-- C2: on any input passing the three validation checks, the transform
output has pairwise distinct (Track, Artist) keys, is re-indexed 0,1,2,...,
is an order-preserving selection of the (popularity-remapped) input rows,
keeps for each key exactly the first matching input row, and discards only
later repeats (every input key is still represented). -/
theorem transform_dedup_spec (df : List (Nat × PlayRow)) (out : List (Nat × SongRow))
    (h : transform df = Except.ok out) :
    (out.map (fun p => songKey p.2)).Nodup ∧
    out.map Prod.fst = List.range out.length ∧
    (out.map Prod.snd).Sublist (df.map (fun q => applyPopularity q.2)) ∧
    (∀ p ∈ out, ∃ q, df.find? (fun q0 => decide (rowKey q0.2 = songKey p.2)) = some q ∧
        p.2 = applyPopularity q.2) ∧
    (∀ q ∈ df, ∃ p ∈ out, songKey p.2 = rowKey q.2) := by
  obtain ⟨-, -, -, rfl⟩ := transform_eq_ok h
  set dd := drop_duplicates df with hdd
  have houtkeys : (transform_output df).map (fun p => songKey p.2) = dd.map pairKey := by
    simp only [transform_output, reset_index, List.map_map, ← hdd]
    have h1 : ((dd.map Prod.snd).enum.map
        ((fun p : Nat × SongRow => songKey p.2) ∘ fun p : Nat × PlayRow => (p.1, applyPopularity p.2)))
        = (dd.map Prod.snd).enum.map (fun p => rowKey p.2) := rfl
    rw [h1, enum_map_comp, List.map_map]
    rfl
  have houtsnd : (transform_output df).map Prod.snd = dd.map (fun q => applyPopularity q.2) := by
    simp only [transform_output, reset_index, List.map_map, ← hdd]
    have h1 : ((dd.map Prod.snd).enum.map
        (Prod.snd ∘ fun p : Nat × PlayRow => (p.1, applyPopularity p.2)))
        = (dd.map Prod.snd).enum.map (fun p => applyPopularity p.2) := rfl
    rw [h1, enum_map_comp, List.map_map]
    rfl
  refine ⟨?_, ?_, ?_, ?_, ?_⟩
  · rw [houtkeys]
    exact drop_dup_go_keys_nodup [] df
  · have hlen : (transform_output df).length = (dd.map Prod.snd).enum.length := by
      simp [transform_output, reset_index, hdd]
    have h1 : (transform_output df).map Prod.fst
        = (dd.map Prod.snd).enum.map Prod.fst := by
      simp only [transform_output, reset_index, List.map_map, ← hdd]
      rfl
    rw [h1, List.enum_map_fst, hlen, List.enum_length]
  · rw [houtsnd]
    exact (drop_dup_go_sublist [] df).map _
  · intro p hp
    simp only [transform_output, reset_index, List.mem_map, ← hdd] at hp
    obtain ⟨pr, hpr, rfl⟩ := hp
    have hr : pr.2 ∈ dd.map Prod.snd := by
      have := List.mem_map_of_mem Prod.snd hpr
      rwa [List.enum_map_snd] at this
    obtain ⟨q, hq, hq2⟩ := List.mem_map.mp hr
    refine ⟨q, ?_, by rw [← hq2]⟩
    have hfind := drop_dup_go_first [] df q hq
    have hkey : songKey (pr.1, applyPopularity pr.2).2 = pairKey q := by
      rw [← hq2]
      rfl
    rw [hkey]
    exact hfind
  · intro q hq
    have hcov := drop_dup_go_key_covered [] df q hq
    rcases hcov with hc | hc
    · cases hc
    · have hc' : pairKey q ∈ dd.map pairKey := hc
      rw [← houtkeys] at hc'
      obtain ⟨p, hp, hpk⟩ := List.mem_map.mp hc'
      exact ⟨p, hp, hpk⟩

/-- Witness for C2: a three-row dataframe with one repeated (Track, Artist)
pair transforms successfully, and therefore satisfies the dedup contract. -/
theorem transform_dedup_spec_witness :
    transform [(0, rowA), (1, rowB), (2, rowC)]
        = Except.ok (transform_output [(0, rowA), (1, rowB), (2, rowC)]) ∧
      ((transform_output [(0, rowA), (1, rowB), (2, rowC)]).map
        (fun p => songKey p.2)).Nodup :=
  ⟨by rfl, (transform_dedup_spec [(0, rowA), (1, rowB), (2, rowC)] _ (by rfl)).1⟩

/-- C7: deduplication is idempotent: a dataframe whose (Track, Artist) keys
are already pairwise distinct is returned unchanged, so a second pass of
`drop_duplicates` never removes anything further. -/
theorem drop_duplicates_idempotent :
    (∀ df : List (Nat × PlayRow), (df.map pairKey).Nodup → drop_duplicates df = df) ∧
    (∀ df : List (Nat × PlayRow),
        drop_duplicates (drop_duplicates df) = drop_duplicates df) := by
  have hfix : ∀ df : List (Nat × PlayRow), (df.map pairKey).Nodup →
      drop_duplicates df = df :=
    fun df hn => drop_dup_go_fix [] df hn (fun q _ => List.not_mem_nil _)
  exact ⟨hfix, fun df => hfix (drop_duplicates df) (drop_dup_go_keys_nodup [] df)⟩

/-- Witness for C7: a concrete two-row deduplicated dataframe is unchanged. -/
theorem drop_duplicates_idempotent_witness :
    drop_duplicates [(0, rowA), (1, rowC)] = [(0, rowA), (1, rowC)] :=
  drop_duplicates_idempotent.1 [(0, rowA), (1, rowC)] (by decide)

/-- C3: on a non-empty dataframe, transform raises the null-values failure
exactly when some cell of some row is null; with no nulls present this check
passes and execution continues past it. -/
theorem transform_null_iff (df : List (Nat × PlayRow)) (hne : df ≠ []) :
    transform df = Except.error "Null values found - check extraction process/api call" ↔
      ∃ p ∈ df, hasNull p.2 = true := by
  constructor
  · intro h
    unfold transform at h
    split_ifs at h with h1 h2 h3
    · exact absurd (List.isEmpty_iff.mp h1) hne
    · exact List.any_eq_true.mp h2
    · exact absurd ((Except.error.injEq _ _).mp h) (by decide)
  · intro hnull
    unfold transform
    rw [if_neg (by simp [hne]), if_pos (List.any_eq_true.mpr hnull)]

/-- Witness for C3: a dataframe containing a row with a null Preview cell is
rejected with the null-values message. -/
theorem transform_null_iff_witness :
    transform [(0, rowA), (1, rowNull)]
      = Except.error "Null values found - check extraction process/api call" :=
  (transform_null_iff [(0, rowA), (1, rowNull)] (by decide)).mpr
    ⟨(1, rowNull), by decide, by decide⟩

/-- C4: on a non-empty dataframe with no null cell, transform raises the
duplicated-timestamps failure exactly when some Played At value occurs in at
least two rows; when all Played At values are distinct the check passes. -/
theorem transform_dup_timestamp_iff (df : List (Nat × PlayRow)) (hne : df ≠ [])
    (hnn : ∀ p ∈ df, hasNull p.2 = false) :
    transform df = Except.error "Error during transformation - duplicated timestamps present" ↔
      ∃ t : Option String, List.Duplicate t (df.map (fun p => p.2.playedAt)) := by
  have hany : (df.any fun p => hasNull p.2) = false :=
    List.any_eq_false.mpr (fun p hp => by simp [hnn p hp])
  have hnodup : transform df
      = Except.error "Error during transformation - duplicated timestamps present" ↔
      ¬ (df.map (fun p => p.2.playedAt)).Nodup := by
    constructor
    · intro h
      unfold transform at h
      split_ifs at h with h1 h2 h3
      · exact absurd (List.isEmpty_iff.mp h1) hne
      · exact absurd ((Except.error.injEq _ _).mp h) (by decide)
      · exact h3
    · intro h
      unfold transform
      rw [if_neg (by simp [hne]), if_neg (by simp [hany]), if_pos h]
  rw [hnodup]
  exact List.exists_duplicate_iff_not_nodup.symm

/-- Witness for C4: two fully populated rows sharing the Played At value t1
are rejected with the duplicated-timestamps message. -/
theorem transform_dup_timestamp_iff_witness :
    transform [(0, rowA), (1, rowC), (2, { rowC with playedAt := some "t1" })]
      = Except.error "Error during transformation - duplicated timestamps present" :=
  (transform_dup_timestamp_iff _ (by decide) (by decide)).mpr
    ⟨some "t1", List.duplicate_iff_sublist.mpr (by decide)⟩

/-- C6: the EmptyResult guard in load is unreachable: every dataframe that
transform returns successfully is non-empty (transform rejects empty input
and deduplication keeps at least the first row), and if `load_write` were
nevertheless handed an empty dataframe it would fail with the empty-result
message while leaving the destination table untouched. -/
theorem load_empty_guard :
    (∀ (df : List (Nat × PlayRow)) (songs : List (Nat × SongRow)),
        transform df = Except.ok songs → songs ≠ []) ∧
    (∀ dest : List SongRow,
        load_write [] dest = (Except.error "Issue with transform - dataframe empty", dest)) := by
  constructor
  · intro df songs h
    obtain ⟨hne, -, -, rfl⟩ := transform_eq_ok h
    obtain ⟨r, rs, rfl⟩ := List.exists_cons_of_ne_nil hne
    have hdd := drop_duplicates_ne_nil r rs
    simp only [transform_output, reset_index, ne_eq, List.map_eq_nil_iff, List.enum_eq_nil]
    exact hdd
  · intro dest
    rfl

/-- Witness for C6: a successful one-row transform whose output is non-empty. -/
theorem load_empty_guard_witness :
    transform [(0, rowA)] = Except.ok (transform_output [(0, rowA)]) ∧
      transform_output [(0, rowA)] ≠ [] :=
  ⟨by rfl, load_empty_guard.1 [(0, rowA)] _ (by rfl)⟩

/-- C5: a run of load against a destination table is all-or-nothing: either
every stage succeeds and the destination holds exactly the transformed rows,
or some stage fails and the destination table is exactly what it was before
the run; no partial-success state exists. -/
theorem load_run_atomic (items : List Item) (dest : List SongRow) :
    (∃ songs, transform_run items = Except.ok songs ∧ songs ≠ [] ∧
        load_run items dest = (Except.ok (), songs.map Prod.snd)) ∨
    (∃ e, load_run items dest = (Except.error e, dest)) := by
  unfold load_run
  cases h : transform_run items with
  | error e => exact Or.inr ⟨e, rfl⟩
  | ok songs =>
    by_cases hs : songs.isEmpty
    · exact Or.inr ⟨"Issue with transform - dataframe empty", by simp [load_write, hs]⟩
    · exact Or.inl ⟨songs, rfl, by simpa using hs, by simp [load_write, hs]⟩

/-- Pointwise inversion of a successful projection of a whole payload: the
row list has one row per item, the i-th row being the projection of the
i-th item. -/
theorem extractRows_ok_spec (items : List Item) (rows : List PlayRow)
    (h : extractRows items = Except.ok rows) :
    rows.length = items.length ∧
    ∀ i (hi : i < items.length) (hr : i < rows.length),
      projectItem (items.get ⟨i, hi⟩) = Except.ok (rows.get ⟨i, hr⟩) := by
  induction items generalizing rows with
  | nil =>
    simp only [extractRows] at h
    cases h
    exact ⟨rfl, fun i hi => absurd hi (Nat.not_lt_zero i)⟩
  | cons x xs ih =>
    simp only [extractRows] at h
    cases hx : projectItem x with
    | error e => rw [hx] at h; cases h
    | ok r =>
      rw [hx] at h
      cases hxs : extractRows xs with
      | error e => rw [hxs] at h; cases h
      | ok rs =>
        rw [hxs] at h
        cases h
        obtain ⟨hlen, hget⟩ := ih rs hxs
        refine ⟨by simp [hlen], ?_⟩
        intro i hi hr
        match i with
        | 0 => exact hx
        | i + 1 =>
          exact hget i (Nat.lt_of_succ_lt_succ hi) (Nat.lt_of_succ_lt_succ hr)

/-- C8: when the extraction succeeds, the dataframe has exactly one row per
payload item, hence at most 50 rows for a provider honouring the limit=50
request issued by get_data, and the i-th row (labelled i) is the projection
of the i-th payload item, preserving the provider most-recent-first order. -/
theorem extract_order_spec (provider : Nat → List Item) (out : List (Nat × PlayRow))
    (hlim : ∀ n, (provider n).length ≤ n)
    (h : extract (get_data provider) = Except.ok out) :
    out.length = (get_data provider).length ∧ out.length ≤ 50 ∧
    ∀ i (hi : i < (get_data provider).length) (ho : i < out.length),
      (out.get ⟨i, ho⟩).1 = i ∧
      projectItem ((get_data provider).get ⟨i, hi⟩) = Except.ok (out.get ⟨i, ho⟩).2 := by
  unfold extract at h
  cases hr : extractRows (get_data provider) with
  | error e => rw [hr] at h; cases h
  | ok rows =>
    rw [hr] at h
    cases h
    obtain ⟨hlen, hget⟩ := extractRows_ok_spec _ rows hr
    have hlen2 : rows.enum.length = rows.length := List.enum_length
    refine ⟨by rw [hlen2, hlen], ?_, ?_⟩
    · rw [hlen2, hlen]
      exact hlim 50
    · intro i hi ho
      have ho2 : i < rows.length := by rwa [hlen2] at ho
      have henum : rows.enum.get ⟨i, ho⟩ = (i, rows.get ⟨i, ho2⟩) := by
        simp [List.get_eq_getElem, List.getElem_enum]
      rw [henum]
      exact ⟨rfl, hget i hi ho2⟩

/-- Witness for C8: the sample provider yields a one-item payload whose
extraction is the single projected row labelled 0. -/
theorem extract_order_spec_witness :
    extract (get_data sampleProvider) = Except.ok [(0, goodRow)] ∧
      ([((0 : Nat), goodRow)]).length ≤ 50 :=
  ⟨by rfl, (extract_order_spec sampleProvider [(0, goodRow)]
      (fun n => by simp [sampleProvider]) (by rfl)).2.1⟩

/-- C10: extraction is only well defined when every album image list is
non-empty: on a payload containing an item with an empty image list the
album-cover projection raises an IndexError instead of producing a null
cell, and projection of a whole payload succeeds exactly when no item has
an empty image list. -/
theorem extract_empty_images :
    extract [badItem] = Except.error "list index out of range" ∧
    ∀ items : List Item,
      (∃ rows, extractRows items = Except.ok rows) ↔
        ∀ x ∈ items, x.track.album.images ≠ [] := by
  refine ⟨by rfl, ?_⟩
  intro items
  induction items with
  | nil => simp [extractRows]
  | cons x xs ih =>
    constructor
    · rintro ⟨rows, hrows⟩
      simp only [extractRows] at hrows
      cases hx : projectItem x with
      | error e => rw [hx] at hrows; cases hrows
      | ok r =>
        rw [hx] at hrows
        cases hxs : extractRows xs with
        | error e => rw [hxs] at hrows; cases hrows
        | ok rs =>
          intro y hy
          rcases List.mem_cons.mp hy with rfl | hy
          · intro hnil
            unfold projectItem at hx
            rw [hnil] at hx
            cases hx
          · exact (ih.mp ⟨rs, hxs⟩) y hy
    · intro hall
      have hx : x.track.album.images ≠ [] := hall x (List.mem_cons_self _ _)
      obtain ⟨img, imgs, himg⟩ := List.exists_cons_of_ne_nil hx
      obtain ⟨rs, hrs⟩ := ih.mpr (fun y hy => hall y (List.mem_cons_of_mem _ hy))
      refine ⟨{ track := some x.track.name
                artist := some (joinArtists x.track.artists)
                album := some x.track.album.name
                albumCover := some img.url
                preview := x.track.preview_url
                playedAt := some x.played_at
                popularity := some x.track.popularity } :: rs, ?_⟩
      simp only [extractRows, projectItem, himg, List.head?_cons, hrs]

/-- Witness for C10: the one-good-item payload has no empty image list, so
its projection succeeds. -/
theorem extract_empty_images_witness :
    ∃ rows, extractRows [goodItem] = Except.ok rows :=
  (extract_empty_images.2 [goodItem]).mpr
    (fun x hx => by
      rcases List.mem_cons.mp hx with rfl | hx
      · simp [goodItem]
      · cases hx)

end Spotify
